import Mathlib

/-
  Verification of the statistics aggregation engine of the one9-money-control
  repository (Express/Mongoose personal finance tracker).

  Shallow embedding conventions:
  * JS numbers carrying money amounts are modelled as exact rationals.
  * A stored calendar date is modelled as a civil (year, month, day) triple;
    the JS Date value it denotes is the UTC-midnight instant of that day,
    so `getDate`, `getDay`, `getFullYear`, `getMonth` and `toISOString`
    coincide with their UTC readings (the server is assumed to run in UTC).
  * Day numbers (days since 1970-01-01) and millisecond timestamps are
    Lean integers; the civil/day-number conversions follow the proleptic
    Gregorian calendar used by JS Date.
  * JS plain objects used as string-keyed accumulators are association
    lists; `obj[k] = (obj[k] || 0) + v` keeps the position of an existing
    key and appends a fresh key, which `bump` mirrors.
-/

namespace OneNine

/-! ## Decimal string rendering (for template literals and toISOString) -/

/-- Little-endian-free decimal digit list of a natural number, fuel-based so
that it reduces definitionally. `natDigitsAux (n+1) n` is the usual decimal
representation, most significant digit first. -/
def natDigitsAux : Nat → Nat → List Char
  | 0, _ => []
  | fuel + 1, n =>
      if n < 10 then [Char.ofNat (48 + n)]
      else natDigitsAux fuel (n / 10) ++ [Char.ofNat (48 + n % 10)]

/-- Decimal string of a natural number (the string a JS template literal or
`Number.prototype.toString` produces for a non-negative integer). -/
def natToStr (n : Nat) : String := String.mk (natDigitsAux (n + 1) n)

/-- Decimal string of an integer. -/
def intToStr (z : Int) : String :=
  if z < 0 then "-" ++ natToStr z.natAbs else natToStr z.toNat

/-- Left-pad a string with the digit 0 to the given width. -/
def padZero (w : Nat) (s : String) : String :=
  String.mk (List.replicate (w - s.length) '0') ++ s

/-- Two-digit zero-padded field of an ISO date string. -/
def pad2 (z : Int) : String := padZero 2 (intToStr z)

/-- Four-digit zero-padded year field of an ISO date string. -/
def pad4 (z : Int) : String := padZero 4 (intToStr z)

/-! ## Civil calendar arithmetic (the proleptic Gregorian calendar of JS Date) -/

/-- Calendar date as stored on a transaction: year, month (1-12), day of
month (1-31). -/
structure CivilDate where
  year : Int
  month : Int
  day : Int
  deriving DecidableEq, Repr

/-- Day number (days since 1970-01-01) of a civil date; the standard
era-decomposition formula for the proleptic Gregorian calendar, matching
what JS `Date.UTC(y, m-1, d) / 86400000` computes. -/
def daysFromCivil (y m d : Int) : Int :=
  let yAdj : Int := if m ≤ 2 then y - 1 else y
  let era : Int := yAdj / 400
  let yoe : Int := yAdj - era * 400
  let doy : Int := (153 * (if 2 < m then m - 3 else m + 9) + 2) / 5 + d - 1
  let doe : Int := yoe * 365 + yoe / 4 - yoe / 100 + doy
  era * 146097 + doe - 719468

/-- Civil date of a day number (inverse Gregorian conversion); used to read
calendar components back out of a JS Date after day arithmetic. -/
def civilFromDays (z0 : Int) : CivilDate :=
  let z : Int := z0 + 719468
  let era : Int := z / 146097
  let doe : Int := z - era * 146097
  let yoe : Int :=
    (doe - doe / 1460 + doe / 36524 - doe / 146096) / 365
  let y : Int := yoe + era * 400
  let doy : Int := doe - (365 * yoe + yoe / 4 - yoe / 100)
  let mp : Int := (5 * doy + 2) / 153
  let d : Int := doy - (153 * mp + 2) / 5 + 1
  let m : Int := mp + (if mp < 10 then 3 else -9)
  ⟨if m ≤ 2 then y + 1 else y, m, d⟩

/-- Day number of a civil date record. -/
def CivilDate.days (dt : CivilDate) : Int := daysFromCivil dt.year dt.month dt.day

/-- Millisecond timestamp of the UTC midnight of a civil date, the value a
stored Mongo date denotes in JS arithmetic. -/
def CivilDate.ms (dt : CivilDate) : Int := 86400000 * dt.days

/-- JS `date.getDay()` (0 = Sunday .. 6 = Saturday) of a UTC-midnight date;
1970-01-01 was a Thursday, hence the +4 offset. -/
def jsGetDay (dt : CivilDate) : Int := (dt.days + 4) % 7

/-- JS `date.setDate(n)`: replace the day-of-month by `n`, letting out-of-range
values roll over into neighbouring months; returns the resulting day number. -/
def jsSetDateDays (dt : CivilDate) (n : Int) : Int :=
  daysFromCivil dt.year dt.month 1 + (n - 1)

/-- Date part of `toISOString()` for a civil date: `YYYY-MM-DD`. -/
def isoDate (dt : CivilDate) : String :=
  pad4 dt.year ++ "-" ++ pad2 dt.month ++ "-" ++ pad2 dt.day

/-- First seven characters of `toISOString()`: the zero-padded `YYYY-MM`. -/
def isoYearMonth (dt : CivilDate) : String := pad4 dt.year ++ "-" ++ pad2 dt.month

/-- Date part of `toISOString()` of a day number. -/
def isoDateOfDays (z : Int) : String := isoDate (civilFromDays z)

/-! ## The three frequency-key implementations in the source -/

/-- Frequency key function `calculateFrequencyKey` of
`src/routers/expense.router.js` (used by the expense `GET /stats/filter`
endpoint); the JS switch over the frequency string is an if-chain here. -/
def calculateFrequencyKey (date : CivilDate) (frequency : String) : String :=
  if frequency = "daily" then
    isoDate date
  else if frequency = "weekly" then
    isoDateOfDays (jsSetDateDays date (date.day - jsGetDay date))
  else if frequency = "monthly" then
    isoYearMonth date
  else if frequency = "quarterly" then
    intToStr date.year ++ "-Q" ++ intToStr (((date.month - 1) + 3) / 3)
  else if frequency = "yearly" then
    intToStr date.year
  else
    isoYearMonth date

/-- Frequency key helper `getFrequencyKey` of `src/routers/income.router.js`
(income `GET /stats/filter`); its weekly bucket is the week-of-month ordinal
`ceil(dayOfMonth / 7)`, not a week-start date. -/
def getFrequencyKey (date : CivilDate) (frequency : String) : String :=
  if frequency = "daily" then
    isoDate date
  else if frequency = "weekly" then
    intToStr date.year ++ "-W" ++ intToStr ((date.day + 6) / 7)
  else if frequency = "monthly" then
    isoYearMonth date
  else if frequency = "quarterly" then
    intToStr date.year ++ "-Q" ++ intToStr ((date.month - 1) / 3 + 1)
  else if frequency = "yearly" then
    intToStr date.year
  else
    isoYearMonth date

/-- Date-key helper `formatDateKey` of the trip router `GET /stats/filter`
handler (src/unnamed/part_001); it has no daily branch and no default, so it
yields no key (JS `undefined`) outside the four handled frequencies. -/
def formatDateKey (frequency : String) (date : CivilDate) : Option String :=
  if frequency = "weekly" then
    some (intToStr date.year ++ "-W" ++ intToStr ((date.day + 6) / 7))
  else if frequency = "monthly" then
    some (intToStr date.year ++ "-" ++ intToStr date.month)
  else if frequency = "quarterly" then
    some (intToStr date.year ++ "-Q" ++ intToStr ((date.month + 2) / 3))
  else if frequency = "yearly" then
    some (intToStr date.year)
  else
    none

/-! ## String-keyed accumulator objects -/

/-- JS accumulator update `m[k] = (m[k] || 0) + v` on a plain object modelled
as an association list: an existing key keeps its position, a fresh key is
appended at the end. -/
def bump (m : List (String × ℚ)) (k : String) (v : ℚ) : List (String × ℚ) :=
  match m with
  | [] => [(k, v)]
  | (q, w) :: rest => if q = k then (q, w + v) :: rest else (q, w) :: bump rest k v

/-- JS read `m[k] || 0`: the value at a key, defaulting to zero. -/
def getOr0 (m : List (String × ℚ)) (k : String) : ℚ :=
  match m with
  | [] => 0
  | (q, w) :: rest => if q = k then w else getOr0 rest k

/-- Sum of the values of an accumulator object (`Object.values(m)` summed). -/
def mapSum (m : List (String × ℚ)) : ℚ := (m.map Prod.snd).sum

/-! ## Expense aggregation (expense.router.js stats endpoints) -/

/-- Expense document as fetched by the `$match`/`$lookup` pipeline, before
`$unwind`: the category lookup result is empty (`none`) when the referenced
category no longer exists. -/
structure RawExpense where
  amount : ℚ
  etype : String
  needOrWant : String
  date : CivilDate
  category : Option String
  deriving DecidableEq, Repr

/-- Expense row after `{ $unwind: "$category" }`, carrying the resolved
category name. -/
structure JoinedExpense where
  amount : ℚ
  etype : String
  needOrWant : String
  date : CivilDate
  categoryName : String
  deriving DecidableEq, Repr

/-- The `$unwind: "$category"` stage on the lookup result: a document whose
category array is empty is dropped, one with a match is flattened. -/
def unwindCategory (raw : List RawExpense) : List JoinedExpense :=
  raw.filterMap fun e =>
    e.category.map fun name => ⟨e.amount, e.etype, e.needOrWant, e.date, name⟩

/-- The `stats` accumulator object of the expense stats endpoints
(`totalAmountByFrequency` plays the role of `totalAmountByMonth` for the
unfiltered endpoint, whose bucket key is fixed to the month). -/
structure ExpenseStats where
  totalAmount : ℚ
  totalAmountByType : List (String × ℚ)
  totalAmountByNeedOrWant : List (String × ℚ)
  totalAmountByFrequency : List (String × ℚ)
  totalAmountByCategory : List (String × ℚ)
  deriving DecidableEq, Repr

/-- Initial `stats` object of the expense stats endpoints. -/
def initExpenseStats : ExpenseStats :=
  { totalAmount := 0
    totalAmountByType := [("fixed", 0), ("variable", 0)]
    totalAmountByNeedOrWant := [("need", 0), ("want", 0)]
    totalAmountByFrequency := []
    totalAmountByCategory := [] }

/-- Body of the `expenses.forEach` callback of the expense `GET /stats/filter`
handler: one expense is added to every axis of the accumulator. -/
def statsFilterStep (frequency : String) (s : ExpenseStats) (e : JoinedExpense) :
    ExpenseStats :=
  { totalAmount := s.totalAmount + e.amount
    totalAmountByType := bump s.totalAmountByType e.etype e.amount
    totalAmountByNeedOrWant := bump s.totalAmountByNeedOrWant e.needOrWant e.amount
    totalAmountByFrequency :=
      bump s.totalAmountByFrequency (calculateFrequencyKey e.date frequency) e.amount
    totalAmountByCategory := bump s.totalAmountByCategory e.categoryName e.amount }

/-- Aggregation fold of the expense `GET /stats/filter` handler over the
retained (date-filtered, category-joined) expenses. -/
def expenseStatsFilter (frequency : String) (expenses : List JoinedExpense) :
    ExpenseStats :=
  expenses.foldl (statsFilterStep frequency) initExpenseStats

/-- Body of the `expenses.forEach` callback of the expense `GET /stats/all`
handler; identical to the filter fold except that the bucket key is always
`toISOString().slice(0, 7)` (the month). -/
def statsAllStep (s : ExpenseStats) (e : JoinedExpense) : ExpenseStats :=
  { totalAmount := s.totalAmount + e.amount
    totalAmountByType := bump s.totalAmountByType e.etype e.amount
    totalAmountByNeedOrWant := bump s.totalAmountByNeedOrWant e.needOrWant e.amount
    totalAmountByFrequency := bump s.totalAmountByFrequency (isoYearMonth e.date) e.amount
    totalAmountByCategory := bump s.totalAmountByCategory e.categoryName e.amount }

/-- The expense `GET /stats/all` computation: the `$lookup`/`$unwind` pipeline
followed by the accumulation fold. -/
def expenseStatsAll (raw : List RawExpense) : ExpenseStats :=
  (unwindCategory raw).foldl statsAllStep initExpenseStats

/-! ## Trip rollup (trip router stats endpoints, src/unnamed/part_000 and part_001) -/

/-- Expense document inside a trip's `expensesDetails` lookup array. -/
structure TripExpense where
  amount : ℚ
  etype : String
  needOrWant : String
  date : CivilDate
  categoryId : String
  deriving DecidableEq, Repr

/-- Category document inside a trip's `categoriesDetails` lookup array. -/
structure CategoryDoc where
  cid : String
  name : String
  deriving DecidableEq, Repr

/-- Trip document after the aggregation pipeline's two lookups. Start and end
are millisecond timestamps (`new Date(trip.startDate)` arithmetic); a missing
end date is `none`. -/
structure TripDoc where
  tname : String
  startMs : Int
  endMs : Option Int
  expensesDetails : List TripExpense
  categoriesDetails : List CategoryDoc
  deriving DecidableEq, Repr

/-- Category-name resolution of the trip stats folds:
`trip.categoriesDetails.find(c => c._id === expense.categoryId)?.name`. -/
def lookupCategoryName (cats : List CategoryDoc) (categoryId : String) :
    Option String :=
  (cats.find? fun c => c.cid = categoryId).map CategoryDoc.name

/-- Ceiling of `a / b` for a positive divisor, as `Math.ceil` computes on the
exact quotient. -/
def msCeilDiv (a b : Int) : Int := -((-a) / b)

/-- Trip duration of the trip stats handlers:
`Math.ceil((endDate - startDate) / 86400000) || 1`, where a missing end date
falls back to `new Date()` (the current time). The `|| 1` replaces only an
exactly-zero ceiling. -/
def tripDuration (startMs : Int) (endMs : Option Int) (nowMs : Int) : Int :=
  let effectiveEnd : Int :=
    match endMs with
    | some t => t
    | none => nowMs
  let c : Int := msCeilDiv (effectiveEnd - startMs) 86400000
  if c = 0 then 1 else c

/-- Grouping attached to a filtered trip rollup: the raw filtered expense
list for the daily frequency, a keyed amount grouping otherwise (the source
keeps this asymmetry). -/
inductive FreqView where
  | raw (expenses : List TripExpense)
  | grouped (m : List (String × ℚ))
  deriving DecidableEq, Repr

/-- The `tripStats` record built by the trip `GET /stats/filter` handler.
`averageDailyExpense` is kept as the exact quotient; the handler renders it
with `toFixed(2)`, a display concern not modelled here. -/
structure TripStats where
  tripName : String
  tripDuration : Int
  totalAmount : ℚ
  totalAmountByType : List (String × ℚ)
  totalAmountByNeedOrWant : List (String × ℚ)
  totalAmountByCategory : List (String × ℚ)
  averageDailyExpense : ℚ
  filteredByFrequency : FreqView
  deriving DecidableEq, Repr

/-- Accumulator of the per-trip expense fold (the fields mutated by the
`forEach` body shared by all three trip stats handlers). -/
structure TripAcc where
  totalAmount : ℚ
  totalAmountByType : List (String × ℚ)
  totalAmountByNeedOrWant : List (String × ℚ)
  totalAmountByCategory : List (String × ℚ)
  deriving DecidableEq, Repr

/-- Initial per-trip accumulator. -/
def initTripAcc : TripAcc :=
  { totalAmount := 0
    totalAmountByType := [("fixed", 0), ("variable", 0)]
    totalAmountByNeedOrWant := [("need", 0), ("want", 0)]
    totalAmountByCategory := [] }

/-- Body of the per-trip `forEach` of the trip stats handlers: the amount is
added to the total, type and need/want axes unconditionally, and to the
category axis only when the category lookup resolves (`if (categoryName)`). -/
def tripFoldStep (cats : List CategoryDoc) (s : TripAcc) (e : TripExpense) :
    TripAcc :=
  { totalAmount := s.totalAmount + e.amount
    totalAmountByType := bump s.totalAmountByType e.etype e.amount
    totalAmountByNeedOrWant := bump s.totalAmountByNeedOrWant e.needOrWant e.amount
    totalAmountByCategory :=
      match lookupCategoryName cats e.categoryId with
      | some name => bump s.totalAmountByCategory name e.amount
      | none => s.totalAmountByCategory }

/-- Per-trip accumulation over an expense list. -/
def tripFold (cats : List CategoryDoc) (expenses : List TripExpense) : TripAcc :=
  expenses.foldl (tripFoldStep cats) initTripAcc

/-- Date-range test of the trip `GET /stats/filter` handler:
`expenseDate >= new Date(startDate) && expenseDate <= new Date(endDate)`. -/
def inRange (startQueryMs endQueryMs : Int) (e : TripExpense) : Bool :=
  decide (startQueryMs ≤ e.date.ms ∧ e.date.ms ≤ endQueryMs)

/-- Frequency grouping of the filtered expenses (trip `GET /stats/filter`):
daily exposes the raw list; otherwise amounts are keyed by `formatDateKey`
(whose missing key would surface as the JS property name "undefined"). -/
def groupByFrequency (frequency : String) (expenses : List TripExpense) : FreqView :=
  if frequency = "daily" then
    .raw expenses
  else
    .grouped (expenses.foldl
      (fun m e => bump m ((formatDateKey frequency e.date).getD "undefined") e.amount)
      [])

/-- The `tripStats` record the trip `GET /stats/filter` handler builds for one
trip from its filtered expense list. -/
def computeTripStats (frequency : String) (nowMs : Int) (trip : TripDoc)
    (filteredExpenses : List TripExpense) : TripStats :=
  let duration := tripDuration trip.startMs trip.endMs nowMs
  let acc := tripFold trip.categoriesDetails filteredExpenses
  { tripName := trip.tname
    tripDuration := duration
    totalAmount := acc.totalAmount
    totalAmountByType := acc.totalAmountByType
    totalAmountByNeedOrWant := acc.totalAmountByNeedOrWant
    totalAmountByCategory := acc.totalAmountByCategory
    averageDailyExpense := acc.totalAmount / (duration : ℚ)
    filteredByFrequency := groupByFrequency frequency filteredExpenses }

/-- Per-trip body of the trip `GET /stats/filter` map: trips whose filtered
expense list is empty yield `null` (here `none`). -/
def tripStatsFilterOpt (frequency : String) (startQueryMs endQueryMs nowMs : Int)
    (trip : TripDoc) : Option TripStats :=
  let filteredExpenses := trip.expensesDetails.filter (inRange startQueryMs endQueryMs)
  if filteredExpenses.isEmpty then none
  else some (computeTripStats frequency nowMs trip filteredExpenses)

/-- Response payload of the trip `GET /stats/filter` handler:
`stats.filter(trip => trip !== null)` keeps exactly the non-null records. -/
def tripStatsFilterResult (frequency : String) (startQueryMs endQueryMs nowMs : Int)
    (trips : List TripDoc) : List TripStats :=
  (trips.map (tripStatsFilterOpt frequency startQueryMs endQueryMs nowMs)).filterMap id

/-! ## Expense creation validation (POST / of expense.router.js) -/

/-- Request body of `POST /api/expenses`; absent fields are `none`. -/
structure ExpenseCreateBody where
  categoryId : Option String
  amount : Option ℚ
  description : Option String
  date : Option CivilDate
  etype : Option String
  needOrWant : Option String
  deriving DecidableEq, Repr

/-- JS falsiness of an optional string field: missing or empty. -/
def strFalsy (v : Option String) : Bool :=
  match v with
  | none => true
  | some s => s = ""

/-- JS falsiness of an optional numeric field: missing or zero. -/
def numFalsy (v : Option ℚ) : Bool :=
  match v with
  | none => true
  | some q => q = 0

/-- Stored expense record created by a successful `POST /api/expenses`. -/
structure StoredExpense where
  userId : String
  categoryId : String
  amount : ℚ
  description : Option String
  date : Option CivilDate
  etype : String
  needOrWant : String
  deriving DecidableEq, Repr

/-- Outcome of the create handler: a 400 validation rejection stores nothing,
a 201 success stores the new record. -/
inductive CreateExpenseResult where
  | badRequest
  | created (e : StoredExpense)
  deriving DecidableEq, Repr

/-- The `POST /api/expenses` handler: the guard
`if (!categoryId || !amount || !type || !needOrWant)` returns 400 before
anything is saved; otherwise the expense document is stored. -/
def postExpense (userId : String) (b : ExpenseCreateBody) : CreateExpenseResult :=
  if strFalsy b.categoryId || numFalsy b.amount || strFalsy b.etype ||
      strFalsy b.needOrWant then
    .badRequest
  else
    .created
      { userId := userId
        categoryId := b.categoryId.getD ""
        amount := b.amount.getD 0
        description := b.description
        date := b.date
        etype := b.etype.getD ""
        needOrWant := b.needOrWant.getD "" }

/-! ## Spec-side notions -/

/-- Day number of the Sunday on or before a given day number (the spec's
"week start on or before the input date"; day 0 = Thursday 1970-01-01). -/
def sundayOnOrBefore (z : Int) : Int := z - (z + 4) % 7

/-- Two day numbers fall in the same Sunday-started week: weeks are the
blocks of seven consecutive days each beginning on a Sunday. -/
def sameSundayWeek (z1 z2 : Int) : Prop := (z1 + 4) / 7 = (z2 + 4) / 7

/-! ## Helper lemmas -/

theorem length_mk (l : List Char) : (String.mk l).length = l.length := rfl

theorem mapSum_bump (m : List (String × ℚ)) (k : String) (v : ℚ) :
    mapSum (bump m k v) = mapSum m + v := by
  induction m with
  | nil => simp [bump, mapSum]
  | cons p rest ih =>
    obtain ⟨q, w⟩ := p
    by_cases h : q = k
    · simp [bump, h, mapSum]
      ring
    · simp [bump, h, mapSum] at ih ⊢
      rw [ih]
      ring

theorem getOr0_bump (m : List (String × ℚ)) (q k : String) (v : ℚ) :
    getOr0 (bump m q v) k = getOr0 m k + (if q = k then v else 0) := by
  induction m with
  | nil =>
    by_cases h : q = k <;> simp [bump, getOr0, h]
  | cons p rest ih =>
    obtain ⟨q0, w⟩ := p
    by_cases h0 : q0 = q
    · subst h0
      by_cases h : q0 = k <;> simp [bump, getOr0, h]
    · by_cases h : q0 = k
      · subst h
        have hq : q ≠ q0 := fun hh => h0 hh.symm
        simp [bump, h0, getOr0, hq]
      · simp [bump, h0, getOr0, h, ih]

/-- Amount total of a list of joined expenses. -/
def amtSum (l : List JoinedExpense) : ℚ := (l.map JoinedExpense.amount).sum

/-- Characterisation of the `GET /stats/filter` fold from any starting
accumulator: the total and the value sums of all four axes each grow by the
amount total, and each key of each axis grows by the amounts of the expenses
mapped to that key. -/
theorem statsFilter_fold_char (frequency : String) (expenses : List JoinedExpense)
    (s : ExpenseStats) :
    (expenses.foldl (statsFilterStep frequency) s).totalAmount =
        s.totalAmount + amtSum expenses ∧
    mapSum (expenses.foldl (statsFilterStep frequency) s).totalAmountByType =
        mapSum s.totalAmountByType + amtSum expenses ∧
    mapSum (expenses.foldl (statsFilterStep frequency) s).totalAmountByNeedOrWant =
        mapSum s.totalAmountByNeedOrWant + amtSum expenses ∧
    mapSum (expenses.foldl (statsFilterStep frequency) s).totalAmountByFrequency =
        mapSum s.totalAmountByFrequency + amtSum expenses ∧
    mapSum (expenses.foldl (statsFilterStep frequency) s).totalAmountByCategory =
        mapSum s.totalAmountByCategory + amtSum expenses ∧
    (∀ k, getOr0 (expenses.foldl (statsFilterStep frequency) s).totalAmountByType k =
        getOr0 s.totalAmountByType k +
          (expenses.map fun e => if e.etype = k then e.amount else 0).sum) ∧
    (∀ k, getOr0 (expenses.foldl (statsFilterStep frequency) s).totalAmountByNeedOrWant k =
        getOr0 s.totalAmountByNeedOrWant k +
          (expenses.map fun e => if e.needOrWant = k then e.amount else 0).sum) ∧
    (∀ k, getOr0 (expenses.foldl (statsFilterStep frequency) s).totalAmountByFrequency k =
        getOr0 s.totalAmountByFrequency k +
          (expenses.map fun e =>
            if calculateFrequencyKey e.date frequency = k then e.amount else 0).sum) ∧
    (∀ k, getOr0 (expenses.foldl (statsFilterStep frequency) s).totalAmountByCategory k =
        getOr0 s.totalAmountByCategory k +
          (expenses.map fun e => if e.categoryName = k then e.amount else 0).sum) := by
  induction expenses generalizing s with
  | nil => simp [amtSum]
  | cons e l ih =>
    obtain ⟨h1, h2, h3, h4, h5, h6, h7, h8, h9⟩ := ih (statsFilterStep frequency s e)
    refine ⟨?_, ?_, ?_, ?_, ?_, ?_, ?_, ?_, ?_⟩
    · rw [List.foldl_cons, h1]
      simp [statsFilterStep, amtSum]
      ring
    · rw [List.foldl_cons, h2]
      simp [statsFilterStep, mapSum_bump, amtSum]
      ring
    · rw [List.foldl_cons, h3]
      simp [statsFilterStep, mapSum_bump, amtSum]
      ring
    · rw [List.foldl_cons, h4]
      simp [statsFilterStep, mapSum_bump, amtSum]
      ring
    · rw [List.foldl_cons, h5]
      simp [statsFilterStep, mapSum_bump, amtSum]
      ring
    · intro k
      rw [List.foldl_cons, h6 k]
      simp [statsFilterStep, getOr0_bump]
      ring
    · intro k
      rw [List.foldl_cons, h7 k]
      simp [statsFilterStep, getOr0_bump]
      ring
    · intro k
      rw [List.foldl_cons, h8 k]
      simp [statsFilterStep, getOr0_bump]
      ring
    · intro k
      rw [List.foldl_cons, h9 k]
      simp [statsFilterStep, getOr0_bump]
      ring

/-! ## Claim theorems -/

/-- C6: for the empty transaction set, the `GET /stats/filter` fold returns
the initial aggregate — total zero, the type and need/want axes holding their
zeroed preset keys, and empty bucket and category maps — rather than failing. -/
theorem expenseStatsFilter_empty (frequency : String) :
    (expenseStatsFilter frequency []).totalAmount = 0 ∧
    (expenseStatsFilter frequency []).totalAmountByType = [("fixed", 0), ("variable", 0)] ∧
    (expenseStatsFilter frequency []).totalAmountByNeedOrWant = [("need", 0), ("want", 0)] ∧
    (expenseStatsFilter frequency []).totalAmountByFrequency = [] ∧
    (expenseStatsFilter frequency []).totalAmountByCategory = [] :=
  ⟨rfl, rfl, rfl, rfl, rfl⟩

/-- C2 counterexample: a trip whose end date lies two whole days before its
start date gets computed duration -2, so the claimed universal lower bound of
1 fails for inverted ranges (`|| 1` only remaps an exactly-zero ceiling). -/
theorem tripDuration_inverted_counterexample :
    ¬ (1 ≤ tripDuration 0 (some (-(2 * 86400000))) 0) := by decide

/-- C2 amended: the computed trip duration is at least 1 whenever the
effective end (the end date, or now when absent) is less than one full day
before the start — in particular whenever end ≥ start, including
`startDate = endDate`; an end date a full day or more earlier yields a
negative duration instead. -/
theorem tripDuration_ge_one (startMs nowMs : Int) (endMs : Option Int)
    (h : -86400000 < endMs.getD nowMs - startMs) :
    1 ≤ tripDuration startMs endMs nowMs := by
  cases endMs with
  | none =>
    simp only [Option.getD_none] at h
    unfold tripDuration msCeilDiv
    simp only
    split <;> omega
  | some t =>
    simp only [Option.getD_some] at h
    unfold tripDuration msCeilDiv
    simp only
    split <;> omega

theorem tripDuration_ge_one_witness :
    (-86400000 < (some 0 : Option Int).getD 0 - 0) ∧ 1 ≤ tripDuration 0 (some 0) 0 :=
  ⟨by decide, tripDuration_ge_one 0 0 (some 0) (by decide)⟩

/-- C5: in the trip `GET /stats/filter` response, a trip contributes a record
exactly when its expense list filtered to the query range is non-empty; a
trip with zero in-range expenses is omitted entirely, never zero-filled. -/
theorem tripFilter_omits_empty (frequency : String) (startQueryMs endQueryMs nowMs : Int)
    (trips : List TripDoc) :
    tripStatsFilterResult frequency startQueryMs endQueryMs nowMs trips =
      (trips.filter fun t =>
          !(t.expensesDetails.filter (inRange startQueryMs endQueryMs)).isEmpty).map
        fun t =>
          computeTripStats frequency nowMs t
            (t.expensesDetails.filter (inRange startQueryMs endQueryMs)) := by
  induction trips with
  | nil => rfl
  | cons t ts ih =>
    unfold tripStatsFilterResult at ih ⊢
    by_cases h : (t.expensesDetails.filter (inRange startQueryMs endQueryMs)).isEmpty = true
    · simp [tripStatsFilterOpt, h, ih]
    · simp [tripStatsFilterOpt, h, ih]

/-- C8: any granularity string outside the five recognised ones falls through
to the default switch case of both routers' key calculators, which produces
exactly the monthly key (`toISOString().slice(0, 7)`), not an error. -/
theorem frequencyKey_default_monthly (date : CivilDate) (frequency : String)
    (h1 : frequency ≠ "daily") (h2 : frequency ≠ "weekly") (h3 : frequency ≠ "monthly")
    (h4 : frequency ≠ "quarterly") (h5 : frequency ≠ "yearly") :
    calculateFrequencyKey date frequency = calculateFrequencyKey date "monthly" ∧
    getFrequencyKey date frequency = getFrequencyKey date "monthly" := by
  constructor
  · show calculateFrequencyKey date frequency = isoYearMonth date
    unfold calculateFrequencyKey
    simp [h1, h2, h3, h4, h5]
  · show getFrequencyKey date frequency = isoYearMonth date
    unfold getFrequencyKey
    simp [h1, h2, h3, h4, h5]

theorem frequencyKey_default_monthly_witness :
    (("biweekly" : String) ≠ "daily" ∧ ("biweekly" : String) ≠ "weekly" ∧
      ("biweekly" : String) ≠ "monthly" ∧ ("biweekly" : String) ≠ "quarterly" ∧
      ("biweekly" : String) ≠ "yearly") ∧
    (calculateFrequencyKey ⟨2024, 1, 5⟩ "biweekly" =
        calculateFrequencyKey ⟨2024, 1, 5⟩ "monthly" ∧
      getFrequencyKey ⟨2024, 1, 5⟩ "biweekly" = getFrequencyKey ⟨2024, 1, 5⟩ "monthly") :=
  ⟨⟨by decide, by decide, by decide, by decide, by decide⟩,
    frequencyKey_default_monthly ⟨2024, 1, 5⟩ "biweekly" (by decide) (by decide)
      (by decide) (by decide) (by decide)⟩

/-- C10: a create request whose amount is 0, or with any falsy categoryId,
type or needOrWant, is rejected by the required-field guard with a 400
response and nothing stored — the truthiness check treats a 0 amount as
missing. -/
theorem postExpense_falsyField_badRequest (userId : String) (b : ExpenseCreateBody)
    (h : b.amount = some 0 ∨ strFalsy b.categoryId = true ∨ strFalsy b.etype = true ∨
      strFalsy b.needOrWant = true) :
    postExpense userId b = CreateExpenseResult.badRequest := by
  unfold postExpense
  rcases h with h | h | h | h
  · have hn : numFalsy b.amount = true := by rw [h]; decide
    simp [hn]
  · simp [h]
  · simp [h]
  · simp [h]

theorem postExpense_falsyField_badRequest_witness :
    ((⟨some "cat1", some 0, none, none, some "fixed", some "need"⟩ :
        ExpenseCreateBody).amount = some 0 ∨
      strFalsy (⟨some "cat1", some 0, none, none, some "fixed", some "need"⟩ :
        ExpenseCreateBody).categoryId = true ∨
      strFalsy (⟨some "cat1", some 0, none, none, some "fixed", some "need"⟩ :
        ExpenseCreateBody).etype = true ∨
      strFalsy (⟨some "cat1", some 0, none, none, some "fixed", some "need"⟩ :
        ExpenseCreateBody).needOrWant = true) ∧
    postExpense "user1" ⟨some "cat1", some 0, none, none, some "fixed", some "need"⟩ =
      CreateExpenseResult.badRequest :=
  ⟨Or.inl rfl, postExpense_falsyField_badRequest "user1" _ (Or.inl rfl)⟩

/-- Concrete joined expense used by the witness theorems. -/
def rentExpense : JoinedExpense := ⟨100, "fixed", "need", ⟨2024, 1, 5⟩, "Rent"⟩

/-- Second concrete joined expense used by the witness theorems. -/
def foodExpense : JoinedExpense := ⟨50, "variable", "want", ⟨2024, 1, 20⟩, "Food"⟩

/-- C1: for every non-empty retained expense set, the `GET /stats/filter`
aggregate's total equals the value sum of the type axis, of the frequency
bucket axis, and of the category axis — four equal partitions of one total. -/
theorem statsFilter_partitions (frequency : String) (expenses : List JoinedExpense)
    (_hne : expenses ≠ []) :
    (expenseStatsFilter frequency expenses).totalAmount =
        mapSum (expenseStatsFilter frequency expenses).totalAmountByType ∧
    (expenseStatsFilter frequency expenses).totalAmount =
        mapSum (expenseStatsFilter frequency expenses).totalAmountByFrequency ∧
    (expenseStatsFilter frequency expenses).totalAmount =
        mapSum (expenseStatsFilter frequency expenses).totalAmountByCategory := by
  obtain ⟨h1, h2, -, h4, h5, -⟩ := statsFilter_fold_char frequency expenses initExpenseStats
  unfold expenseStatsFilter
  rw [h1, h2, h4, h5]
  norm_num [initExpenseStats, mapSum]

theorem statsFilter_partitions_witness :
    ([rentExpense, foodExpense] ≠ []) ∧
    ((expenseStatsFilter "monthly" [rentExpense, foodExpense]).totalAmount =
        mapSum (expenseStatsFilter "monthly"
          [rentExpense, foodExpense]).totalAmountByType ∧
      (expenseStatsFilter "monthly" [rentExpense, foodExpense]).totalAmount =
        mapSum (expenseStatsFilter "monthly"
          [rentExpense, foodExpense]).totalAmountByFrequency ∧
      (expenseStatsFilter "monthly" [rentExpense, foodExpense]).totalAmount =
        mapSum (expenseStatsFilter "monthly"
          [rentExpense, foodExpense]).totalAmountByCategory) :=
  ⟨by decide, statsFilter_partitions "monthly" [rentExpense, foodExpense] (by decide)⟩

/-- C9: the `GET /stats/filter` accumulation is order-independent — permuting
the expense list leaves the total and the value at every key of every axis
unchanged (JS objects compare by key values; only insertion order differs). -/
theorem statsFilter_perm_invariant (frequency : String) (l1 l2 : List JoinedExpense)
    (h : l1.Perm l2) :
    (expenseStatsFilter frequency l1).totalAmount =
        (expenseStatsFilter frequency l2).totalAmount ∧
    (∀ k, getOr0 (expenseStatsFilter frequency l1).totalAmountByType k =
        getOr0 (expenseStatsFilter frequency l2).totalAmountByType k) ∧
    (∀ k, getOr0 (expenseStatsFilter frequency l1).totalAmountByNeedOrWant k =
        getOr0 (expenseStatsFilter frequency l2).totalAmountByNeedOrWant k) ∧
    (∀ k, getOr0 (expenseStatsFilter frequency l1).totalAmountByFrequency k =
        getOr0 (expenseStatsFilter frequency l2).totalAmountByFrequency k) ∧
    (∀ k, getOr0 (expenseStatsFilter frequency l1).totalAmountByCategory k =
        getOr0 (expenseStatsFilter frequency l2).totalAmountByCategory k) := by
  obtain ⟨a1, -, -, -, -, b1, c1, d1, e1⟩ := statsFilter_fold_char frequency l1 initExpenseStats
  obtain ⟨a2, -, -, -, -, b2, c2, d2, e2⟩ := statsFilter_fold_char frequency l2 initExpenseStats
  unfold expenseStatsFilter
  refine ⟨?_, ?_, ?_, ?_, ?_⟩
  · rw [a1, a2]
    unfold amtSum
    rw [(h.map JoinedExpense.amount).sum_eq]
  · intro k
    rw [b1 k, b2 k, (h.map fun e => if e.etype = k then e.amount else 0).sum_eq]
  · intro k
    rw [c1 k, c2 k, (h.map fun e => if e.needOrWant = k then e.amount else 0).sum_eq]
  · intro k
    rw [d1 k, d2 k,
      (h.map fun e =>
        if calculateFrequencyKey e.date frequency = k then e.amount else 0).sum_eq]
  · intro k
    rw [e1 k, e2 k, (h.map fun e => if e.categoryName = k then e.amount else 0).sum_eq]

theorem statsFilter_perm_invariant_witness :
    ([rentExpense, foodExpense].Perm [foodExpense, rentExpense]) ∧
    ((expenseStatsFilter "monthly" [rentExpense, foodExpense]).totalAmount =
        (expenseStatsFilter "monthly" [foodExpense, rentExpense]).totalAmount ∧
      (∀ k, getOr0 (expenseStatsFilter "monthly"
            [rentExpense, foodExpense]).totalAmountByType k =
          getOr0 (expenseStatsFilter "monthly"
            [foodExpense, rentExpense]).totalAmountByType k) ∧
      (∀ k, getOr0 (expenseStatsFilter "monthly"
            [rentExpense, foodExpense]).totalAmountByNeedOrWant k =
          getOr0 (expenseStatsFilter "monthly"
            [foodExpense, rentExpense]).totalAmountByNeedOrWant k) ∧
      (∀ k, getOr0 (expenseStatsFilter "monthly"
            [rentExpense, foodExpense]).totalAmountByFrequency k =
          getOr0 (expenseStatsFilter "monthly"
            [foodExpense, rentExpense]).totalAmountByFrequency k) ∧
      (∀ k, getOr0 (expenseStatsFilter "monthly"
            [rentExpense, foodExpense]).totalAmountByCategory k =
          getOr0 (expenseStatsFilter "monthly"
            [foodExpense, rentExpense]).totalAmountByCategory k)) :=
  ⟨by decide,
    statsFilter_perm_invariant "monthly" [rentExpense, foodExpense]
      [foodExpense, rentExpense] (by decide)⟩

/-- C3 counterexample: a single orphaned fixed expense of amount 30 is
dropped by the expense `GET /stats/all` pipeline's `$unwind` of the empty
category lookup, so its aggregate total is 0, not the claimed 30 — the
orphan contributes to no axis of that aggregate. -/
theorem orphaned_dropped_by_unwind :
    ¬ ((expenseStatsAll [⟨30, "fixed", "need", ⟨2024, 5, 1⟩, none⟩]).totalAmount = 30) := by
  decide

/-- C3 amended: in the trip stats folds (which guard the category lookup with
`if (categoryName)`), an orphaned expense never raises, adds its amount to
the total and to its type and need/want keys, and leaves the category axis
untouched; the expense router's stats pipelines instead drop orphaned rows
entirely at the `$unwind`, contributing to no axis there. -/
theorem tripFold_orphan (cats : List CategoryDoc) (es : List TripExpense)
    (e : TripExpense) (h : lookupCategoryName cats e.categoryId = none) :
    (tripFold cats (es ++ [e])).totalAmount = (tripFold cats es).totalAmount + e.amount ∧
    getOr0 (tripFold cats (es ++ [e])).totalAmountByType e.etype =
      getOr0 (tripFold cats es).totalAmountByType e.etype + e.amount ∧
    getOr0 (tripFold cats (es ++ [e])).totalAmountByNeedOrWant e.needOrWant =
      getOr0 (tripFold cats es).totalAmountByNeedOrWant e.needOrWant + e.amount ∧
    (tripFold cats (es ++ [e])).totalAmountByCategory =
      (tripFold cats es).totalAmountByCategory := by
  unfold tripFold
  simp only [List.foldl_append, List.foldl_cons, List.foldl_nil]
  refine ⟨rfl, ?_, ?_, ?_⟩
  · simp [tripFoldStep, getOr0_bump]
  · simp [tripFoldStep, getOr0_bump]
  · simp [tripFoldStep, h]

theorem tripFold_orphan_witness :
    (lookupCategoryName [⟨"cat1", "Food"⟩]
        (⟨30, "fixed", "need", ⟨2024, 5, 1⟩, "cat2"⟩ : TripExpense).categoryId = none) ∧
    ((tripFold [⟨"cat1", "Food"⟩]
          ([] ++ [⟨30, "fixed", "need", ⟨2024, 5, 1⟩, "cat2"⟩])).totalAmount =
        (tripFold [⟨"cat1", "Food"⟩] []).totalAmount + 30 ∧
      getOr0 (tripFold [⟨"cat1", "Food"⟩]
          ([] ++ [⟨30, "fixed", "need", ⟨2024, 5, 1⟩, "cat2"⟩])).totalAmountByType "fixed" =
        getOr0 (tripFold [⟨"cat1", "Food"⟩] []).totalAmountByType "fixed" + 30 ∧
      getOr0 (tripFold [⟨"cat1", "Food"⟩]
          ([] ++ [⟨30, "fixed", "need", ⟨2024, 5, 1⟩, "cat2"⟩])).totalAmountByNeedOrWant
          "need" =
        getOr0 (tripFold [⟨"cat1", "Food"⟩] []).totalAmountByNeedOrWant "need" + 30 ∧
      (tripFold [⟨"cat1", "Food"⟩]
          ([] ++ [⟨30, "fixed", "need", ⟨2024, 5, 1⟩, "cat2"⟩])).totalAmountByCategory =
        (tripFold [⟨"cat1", "Food"⟩] []).totalAmountByCategory) :=
  ⟨by decide,
    tripFold_orphan [⟨"cat1", "Food"⟩] [] ⟨30, "fixed", "need", ⟨2024, 5, 1⟩, "cat2"⟩
      (by decide)⟩

theorem natDigitsAux_length_le (fuel : Nat) :
    ∀ n k : Nat, n < fuel → n < 10 ^ k → 1 ≤ k → (natDigitsAux fuel n).length ≤ k := by
  induction fuel with
  | zero =>
    intro n k h _ _
    exact absurd h (Nat.not_lt_zero n)
  | succ f ih =>
    intro n k hf hk hk1
    by_cases h10 : n < 10
    · simp [natDigitsAux, h10]
      exact hk1
    · have hk2 : 2 ≤ k := by
        by_contra hc
        have hk1eq : k = 1 := by omega
        rw [hk1eq, pow_one] at hk
        omega
      have hdiv : n / 10 < f := by omega
      have hpow : n / 10 < 10 ^ (k - 1) := by
        have hsplit : 10 ^ k = 10 ^ (k - 1) * 10 := by
          conv_lhs => rw [show k = (k - 1) + 1 by omega]
          rw [pow_succ]
        rw [hsplit] at hk
        omega
      have hrec := ih (n / 10) (k - 1) hdiv hpow (by omega)
      simp [natDigitsAux, h10]
      omega

theorem natToStr_length_le (n k : Nat) (hk : n < 10 ^ k) (h1 : 1 ≤ k) :
    (natToStr n).length ≤ k := by
  unfold natToStr
  rw [length_mk]
  exact natDigitsAux_length_le (n + 1) n k (Nat.lt_succ_self n) hk h1

theorem natToStr_length_one (n : Nat) (h : n < 10) : (natToStr n).length = 1 := by
  unfold natToStr
  rw [length_mk]
  simp [natDigitsAux, h]

theorem padZero_length (w : Nat) (s : String) : (padZero w s).length = max w s.length := by
  unfold padZero
  rw [String.length_append, length_mk, List.length_replicate]
  omega

/-- C7 counterexample: for January 2024 the trip rollup's monthly key is the
unpadded "2024-1" while the expense router produces the zero-padded
"2024-01", so the monthly key format is not uniform project-wide. -/
theorem monthlyKey_trip_counterexample :
    formatDateKey "monthly" ⟨2024, 1, 15⟩ = some "2024-1" ∧
    calculateFrequencyKey ⟨2024, 1, 15⟩ "monthly" = "2024-01" ∧
    formatDateKey "monthly" ⟨2024, 1, 15⟩ ≠
      some (calculateFrequencyKey ⟨2024, 1, 15⟩ "monthly") :=
  ⟨by decide, by decide, by decide⟩

/-- C7 amended: the expense and income aggregations agree on the zero-padded
`YYYY-MM` monthly key for every date, but the trip rollup grouping writes the
unpadded `YYYY-M`, which differs from the router key whenever the month is
below 10 — the format is uniform between the two routers only. -/
theorem monthlyKey_routers_agree_trip_differs (dt : CivilDate) (hy1 : 1 ≤ dt.year)
    (hy2 : dt.year ≤ 9999) (hm1 : 1 ≤ dt.month) (hm2 : dt.month ≤ 12) :
    getFrequencyKey dt "monthly" = calculateFrequencyKey dt "monthly" ∧
    (dt.month < 10 →
      formatDateKey "monthly" dt ≠ some (calculateFrequencyKey dt "monthly")) := by
  constructor
  · rfl
  · intro hlt hcontra
    have hc2 : some (intToStr dt.year ++ "-" ++ intToStr dt.month) =
        some (pad4 dt.year ++ "-" ++ pad2 dt.month) := hcontra
    have heq : intToStr dt.year ++ "-" ++ intToStr dt.month =
        pad4 dt.year ++ "-" ++ pad2 dt.month := Option.some.inj hc2
    have hlen := congrArg String.length heq
    simp only [String.length_append] at hlen
    have hdash : ("-" : String).length = 1 := rfl
    have hy : (intToStr dt.year).length ≤ 4 := by
      unfold intToStr
      rw [if_neg (by omega)]
      apply natToStr_length_le
      · have hle : dt.year.toNat ≤ 9999 := by omega
        calc dt.year.toNat ≤ 9999 := hle
          _ < 10 ^ 4 := by norm_num
      · norm_num
    have hm : (intToStr dt.month).length = 1 := by
      unfold intToStr
      rw [if_neg (by omega)]
      apply natToStr_length_one
      omega
    have h4 : (pad4 dt.year).length = 4 := by
      unfold pad4
      rw [padZero_length]
      omega
    have h2 : (pad2 dt.month).length = 2 := by
      unfold pad2
      rw [padZero_length]
      have hmle : (intToStr dt.month).length ≤ 2 := by omega
      omega
    omega

theorem monthlyKey_routers_agree_trip_differs_witness :
    (1 ≤ (2024 : Int) ∧ (2024 : Int) ≤ 9999 ∧ 1 ≤ (3 : Int) ∧ (3 : Int) ≤ 12) ∧
    (getFrequencyKey ⟨2024, 3, 15⟩ "monthly" = calculateFrequencyKey ⟨2024, 3, 15⟩ "monthly" ∧
      ((3 : Int) < 10 →
        formatDateKey "monthly" ⟨2024, 3, 15⟩ ≠
          some (calculateFrequencyKey ⟨2024, 3, 15⟩ "monthly"))) :=
  ⟨⟨by decide, by decide, by decide, by decide⟩,
    monthlyKey_routers_agree_trip_differs ⟨2024, 3, 15⟩ (by decide) (by decide) (by decide)
      (by decide)⟩

/-- C4 counterexample: for 2024-01-08 the income router's weekly key is the
week-of-month ordinal "2024-W2", not the ISO date "2024-01-07" of the Sunday
on or before it, so the Sunday-week-key claim fails for that implementation
(the trip router's weekly branch uses the same ordinal formula). -/
theorem weeklyKey_income_counterexample :
    getFrequencyKey ⟨2024, 1, 8⟩ "weekly" = "2024-W2" ∧
    isoDateOfDays (sundayOnOrBefore (CivilDate.days ⟨2024, 1, 8⟩)) = "2024-01-07" ∧
    getFrequencyKey ⟨2024, 1, 8⟩ "weekly" ≠
      isoDateOfDays (sundayOnOrBefore (CivilDate.days ⟨2024, 1, 8⟩)) :=
  ⟨by decide, by decide, by decide⟩

/-- C4 amended: the Sunday-week property holds for the expense router's
`calculateFrequencyKey` only — its weekly key is the ISO-formatted day of the
Sunday on or before the input date (at most six days earlier, itself a
Sunday), and the underlying Sunday anchors of two dates coincide exactly when
the dates fall in the same Sunday-started week; the income and trip routers
use a week-of-month ordinal instead. -/
theorem weeklyKey_sunday (dt dt2 : CivilDate) :
    calculateFrequencyKey dt "weekly" = isoDateOfDays (sundayOnOrBefore dt.days) ∧
    sundayOnOrBefore dt.days ≤ dt.days ∧
    dt.days - sundayOnOrBefore dt.days < 7 ∧
    (sundayOnOrBefore dt.days + 4) % 7 = 0 ∧
    (sundayOnOrBefore dt.days = sundayOnOrBefore dt2.days ↔
      sameSundayWeek dt.days dt2.days) := by
  have hlin : daysFromCivil dt.year dt.month dt.day =
      daysFromCivil dt.year dt.month 1 + (dt.day - 1) := by
    unfold daysFromCivil
    split <;> ring
  have hanchor : jsSetDateDays dt (dt.day - jsGetDay dt) = sundayOnOrBefore dt.days := by
    unfold jsSetDateDays jsGetDay sundayOnOrBefore CivilDate.days
    omega
  have hkey : calculateFrequencyKey dt "weekly" =
      isoDateOfDays (jsSetDateDays dt (dt.day - jsGetDay dt)) := rfl
  refine ⟨by rw [hkey, hanchor], ?_, ?_, ?_, ?_⟩
  · unfold sundayOnOrBefore
    omega
  · unfold sundayOnOrBefore
    omega
  · unfold sundayOnOrBefore
    omega
  · unfold sundayOnOrBefore sameSundayWeek
    omega

end OneNine
